import Mathlib

/-!
# Verification of the Dropbox uploader core logic

Shallow embedding of `dropbox_uploader/dropbox_uploader.py`:

* `normalize_dropbox_path` embeds `DropboxUploader._normalize_dropbox_path`
  (remote-path normalization, lines 129-150);
* `uploadLargeFileCalls` embeds the sequence of backend session calls issued
  by `DropboxUploader._upload_large_file` (lines 178-229) for a file whose
  on-disk content is exactly `fileSize` bytes;
* `chooseStrategy`, `retryLoop` and `uploadModel` embed the dispatch,
  retry-classification and validation logic of `DropboxUploader.upload`
  (lines 262-356), with each attempt's backend interaction abstracted as an
  `AttemptResult` and the observable side effects (attempt starts, sleeps)
  recorded as an event trace.

All definitions are structurally recursive so they evaluate by kernel
reduction on concrete inputs.
-/

set_option autoImplicit false

namespace DropboxUploader

/-! ## Constants (module-level constants of the source, lines 35-37) -/

/-- `CHUNK_SIZE = 4 * 1024 * 1024` (4 MiB chunks for large-file uploads). -/
def CHUNK_SIZE : Nat := 4 * 1024 * 1024

/-- `MAX_RETRIES = 3`. -/
def MAX_RETRIES : Nat := 3

/-- `RETRY_DELAY = 5` (seconds). -/
def RETRY_DELAY : Nat := 5

/-! ## Remote-path normalization (`_normalize_dropbox_path`, lines 129-150)

Python strings are modelled as `List Char` (wrapped into `String` at the
interface).  `path.replace("\\", "/")` with a one-character pattern is a
character-wise map; `path.replace("//", "/")` is a single left-to-right
non-overlapping replacement pass; the `while "//" in path` loop repeats the
pass until no occurrence is left. -/

/-- Python `s.startswith(pat)` on character lists. -/
def startsWithL : List Char → List Char → Bool
  | [], _ => true
  | _ :: _, [] => false
  | p :: ps, c :: cs => (p == c) && startsWithL ps cs

/-- Python `pat in s` (substring containment) on character lists. -/
def containsL (pat : List Char) : List Char → Bool
  | [] => startsWithL pat []
  | c :: cs => startsWithL pat (c :: cs) || containsL pat cs

/-- Python `"//" in path` (line 147's loop guard). -/
def hasDoubleSlash (l : List Char) : Bool := containsL ['/', '/'] l

/-- Python `path.replace("\\", "/")` (line 144): the pattern is a single
character, so the replacement is a character-wise map. -/
def replaceBackslash (l : List Char) : List Char :=
  l.map (fun c => if c == '\\' then '/' else c)

/-- One pass of Python `path.replace("//", "/")` (line 148):
left-to-right, non-overlapping. -/
def collapseOnce : List Char → List Char
  | [] => []
  | [c] => [c]
  | c1 :: c2 :: rest =>
    if c1 == '/' && c2 == '/' then '/' :: collapseOnce rest
    else c1 :: collapseOnce (c2 :: rest)

/-- The `while "//" in path` loop (lines 147-148), compiled with an explicit
iteration budget.  Each pass on a string still containing `"//"` strictly
shortens it, so a budget of the string's length always suffices
(`collapseFuel_noDoubleSlash` below proves the loop guard is false on the
result). -/
def collapseFuel : Nat → List Char → List Char
  | 0, l => l
  | fuel + 1, l => if hasDoubleSlash l then collapseFuel fuel (collapseOnce l) else l

/-- The full double-slash-removal loop of lines 146-148. -/
def collapseSlashes (l : List Char) : List Char := collapseFuel l.length l

/-- `_normalize_dropbox_path` body on character lists (lines 139-150):
prepend `'/'` when absent, replace backslashes, collapse double slashes. -/
def normalizeDropboxPathL (p : List Char) : List Char :=
  collapseSlashes (replaceBackslash (if startsWithL ['/'] p then p else '/' :: p))

/-- `DropboxUploader._normalize_dropbox_path` (lines 129-150). -/
def normalize_dropbox_path (s : String) : String := ⟨normalizeDropboxPathL s.data⟩

/-- Result starts with exactly one `'/'`: it starts with `'/'` and not with
`"//"`. -/
def startsExactlyOneSlash (l : List Char) : Bool :=
  startsWithL ['/'] l && !(startsWithL ['/', '/'] l)

/-- No backslash character occurs in the list. -/
def noBackslash (l : List Char) : Bool := l.all (fun c => !(c == '\\'))

theorem collapseOnce_length_le : ∀ l : List Char, (collapseOnce l).length ≤ l.length
  | [] => Nat.le_refl _
  | [_] => Nat.le_refl _
  | c1 :: c2 :: rest => by
    unfold collapseOnce
    by_cases h : (c1 == '/' && c2 == '/') = true
    · rw [if_pos h]
      have ih := collapseOnce_length_le rest
      simp only [List.length_cons]
      omega
    · rw [if_neg h]
      have ih := collapseOnce_length_le (c2 :: rest)
      simp only [List.length_cons] at ih ⊢
      omega

theorem char_beq_comm (a b : Char) : (a == b) = (b == a) := by
  apply Bool.eq_iff_iff.mpr
  simp only [beq_iff_eq]
  exact eq_comm

theorem hasDoubleSlash_cons (c1 c2 : Char) (rest : List Char) :
    hasDoubleSlash (c1 :: c2 :: rest) =
      (((c1 == '/') && (c2 == '/')) || hasDoubleSlash (c2 :: rest)) := by
  simp only [hasDoubleSlash, containsL, startsWithL, Bool.and_true,
    char_beq_comm '/' c1, char_beq_comm '/' c2]

theorem collapseOnce_length_lt : ∀ l : List Char, hasDoubleSlash l = true →
    (collapseOnce l).length < l.length
  | [], h => by simp [hasDoubleSlash, containsL, startsWithL] at h
  | [c], h => by simp [hasDoubleSlash, containsL, startsWithL] at h
  | c1 :: c2 :: rest, h => by
    unfold collapseOnce
    by_cases hc : (c1 == '/' && c2 == '/') = true
    · rw [if_pos hc]
      have := collapseOnce_length_le rest
      simp only [List.length_cons]
      omega
    · rw [if_neg hc]
      have hds : hasDoubleSlash (c2 :: rest) = true := by
        rw [hasDoubleSlash_cons] at h
        rcases Bool.or_eq_true_iff.mp h with h1 | h2
        · exact absurd h1 hc
        · exact h2
      have := collapseOnce_length_lt (c2 :: rest) hds
      simp only [List.length_cons] at this ⊢
      omega

theorem collapseOnce_startsSlash : ∀ l : List Char, startsWithL ['/'] l = true →
    startsWithL ['/'] (collapseOnce l) = true
  | [], h => h
  | [c], h => h
  | c1 :: c2 :: rest, h => by
    unfold collapseOnce
    by_cases hc : (c1 == '/' && c2 == '/') = true
    · rw [if_pos hc]
      simp [startsWithL]
    · rw [if_neg hc]
      simpa [startsWithL] using h

theorem collapseFuel_noDoubleSlash : ∀ (fuel : Nat) (l : List Char), l.length ≤ fuel →
    hasDoubleSlash (collapseFuel fuel l) = false
  | 0, l, h => by
    have hl : l = [] := List.eq_nil_of_length_eq_zero (Nat.le_zero.mp h)
    subst hl
    decide
  | fuel + 1, l, h => by
    unfold collapseFuel
    by_cases hds : hasDoubleSlash l = true
    · rw [if_pos hds]
      exact collapseFuel_noDoubleSlash fuel (collapseOnce l)
        (by have := collapseOnce_length_lt l hds; omega)
    · rw [if_neg hds]
      exact Bool.of_not_eq_true hds

theorem collapseFuel_fixed (fuel : Nat) (l : List Char) (h : hasDoubleSlash l = false) :
    collapseFuel fuel l = l := by
  cases fuel with
  | zero => rfl
  | succ fuel => simp [collapseFuel, h]

theorem collapseFuel_startsSlash : ∀ (fuel : Nat) (l : List Char),
    startsWithL ['/'] l = true → startsWithL ['/'] (collapseFuel fuel l) = true
  | 0, _, h => h
  | fuel + 1, l, h => by
    unfold collapseFuel
    by_cases hds : hasDoubleSlash l = true
    · rw [if_pos hds]
      exact collapseFuel_startsSlash fuel _ (collapseOnce_startsSlash l h)
    · rw [if_neg hds]
      exact h

theorem replaceBackslash_startsSlash : ∀ l : List Char, startsWithL ['/'] l = true →
    startsWithL ['/'] (replaceBackslash l) = true
  | [], h => h
  | c :: rest, h => by
    have hc : '/' = c := by simpa [startsWithL] using h
    subst hc
    simp [startsWithL, replaceBackslash]

theorem replaceBackslash_noBackslash (l : List Char) :
    noBackslash (replaceBackslash l) = true := by
  induction l with
  | nil => rfl
  | cons c rest ih =>
    by_cases hc : c = '\\' <;> simp [noBackslash, replaceBackslash, hc] at ih ⊢ <;>
      exact ih

theorem replaceBackslash_fixed (l : List Char) (h : noBackslash l = true) :
    replaceBackslash l = l := by
  induction l with
  | nil => rfl
  | cons c rest ih =>
    simp only [noBackslash, List.all_cons, Bool.and_eq_true, Bool.not_eq_eq_eq_not,
      Bool.not_true] at h
    have hc : ¬ (c == '\\') = true := by simp [h.1]
    simp only [replaceBackslash, List.map_cons, if_neg hc]
    have := ih (by simpa [noBackslash] using h.2)
    simpa [replaceBackslash] using this

theorem collapseOnce_noBackslash : ∀ l : List Char, noBackslash l = true →
    noBackslash (collapseOnce l) = true
  | [], h => h
  | [c], h => h
  | c1 :: c2 :: rest, h => by
    simp only [noBackslash, List.all_cons, Bool.and_eq_true] at h
    unfold collapseOnce
    by_cases hc : (c1 == '/' && c2 == '/') = true
    · rw [if_pos hc]
      have := collapseOnce_noBackslash rest (by simpa [noBackslash] using h.2.2)
      simp [noBackslash] at this ⊢
      exact this
    · rw [if_neg hc]
      have := collapseOnce_noBackslash (c2 :: rest)
        (by simp [noBackslash]; exact ⟨by simpa using h.2.1, by simpa [noBackslash] using h.2.2⟩)
      simp [noBackslash] at this ⊢
      exact ⟨by simpa using h.1, this⟩

theorem collapseFuel_noBackslash : ∀ (fuel : Nat) (l : List Char),
    noBackslash l = true → noBackslash (collapseFuel fuel l) = true
  | 0, _, h => h
  | fuel + 1, l, h => by
    unfold collapseFuel
    by_cases hds : hasDoubleSlash l = true
    · rw [if_pos hds]
      exact collapseFuel_noBackslash fuel _ (collapseOnce_noBackslash l h)
    · rw [if_neg hds]
      exact h

theorem hasDoubleSlash_of_startsDouble : ∀ l : List Char,
    startsWithL ['/', '/'] l = true → hasDoubleSlash l = true
  | [], h => by simp [startsWithL] at h
  | c :: rest, h => by
    simp only [hasDoubleSlash, containsL, Bool.or_eq_true]
    exact Or.inl h

theorem normalizeL_startsSlash (p : List Char) :
    startsWithL ['/'] (normalizeDropboxPathL p) = true := by
  unfold normalizeDropboxPathL collapseSlashes
  apply collapseFuel_startsSlash
  apply replaceBackslash_startsSlash
  by_cases hp : startsWithL ['/'] p = true
  · rw [if_pos hp]; exact hp
  · rw [if_neg hp]; simp [startsWithL]

theorem normalizeL_noDoubleSlash (p : List Char) :
    hasDoubleSlash (normalizeDropboxPathL p) = false := by
  unfold normalizeDropboxPathL collapseSlashes
  exact collapseFuel_noDoubleSlash _ _ (Nat.le_refl _)

theorem normalizeL_noBackslash (p : List Char) :
    noBackslash (normalizeDropboxPathL p) = true := by
  unfold normalizeDropboxPathL collapseSlashes
  exact collapseFuel_noBackslash _ _ (replaceBackslash_noBackslash _)

theorem normalizeL_idem (p : List Char) :
    normalizeDropboxPathL (normalizeDropboxPathL p) = normalizeDropboxPathL p := by
  have h1 := normalizeL_startsSlash p
  have h2 := normalizeL_noBackslash p
  have h3 := normalizeL_noDoubleSlash p
  generalize hq : normalizeDropboxPathL p = q at h1 h2 h3
  unfold normalizeDropboxPathL
  rw [if_pos h1, replaceBackslash_fixed _ h2]
  unfold collapseSlashes
  exact collapseFuel_fixed _ _ h3

/-- C8: for every input string `x`, the normalized remote path starts with
exactly one `'/'` and contains no occurrence of `"//"`; the canonical remote
path computed by `upload` (line 296) is `normalize_dropbox_path` applied to
`folder ++ "/" ++ filename`, so it satisfies the same invariant. -/
theorem c8_canonical_remote_path_invariant (s : String) :
    startsExactlyOneSlash (normalize_dropbox_path s).data = true ∧
    containsL ['/', '/'] (normalize_dropbox_path s).data = false := by
  have hdata : (normalize_dropbox_path s).data = normalizeDropboxPathL s.data := rfl
  rw [hdata]
  refine ⟨?_, normalizeL_noDoubleSlash s.data⟩
  unfold startsExactlyOneSlash
  rw [normalizeL_startsSlash s.data]
  have hnds := normalizeL_noDoubleSlash s.data
  by_cases hdd : startsWithL ['/', '/'] (normalizeDropboxPathL s.data) = true
  · rw [hasDoubleSlash_of_startsDouble _ hdd] at hnds
    exact absurd hnds (by simp)
  · simp [Bool.of_not_eq_true hdd]

/-- C9: `normalize_dropbox_path` is idempotent. -/
theorem c9_normalize_idempotent (s : String) :
    normalize_dropbox_path (normalize_dropbox_path s) = normalize_dropbox_path s := by
  show String.mk (normalizeDropboxPathL (normalizeDropboxPathL s.data))
      = String.mk (normalizeDropboxPathL s.data)
  rw [normalizeL_idem]

/-- C10: concrete evaluations of `normalize_dropbox_path`: a relative path
gains a leading slash; backslash-separated input (single or doubled literal
backslashes) maps to the same slash-separated path; internal double slashes
are collapsed. -/
theorem c10_normalize_examples :
    normalize_dropbox_path "Reports/2024" = "/Reports/2024" ∧
    normalize_dropbox_path "\\Reports\\2024" = "/Reports/2024" ∧
    normalize_dropbox_path "\\\\Reports\\\\2024" = "/Reports/2024" ∧
    normalize_dropbox_path "/Reports//2024//file.md" = "/Reports/2024/file.md" := by
  refine ⟨by decide, by decide, by decide, by decide⟩

/-! ## Large-file chunked upload (`_upload_large_file`, lines 178-229)

The file handle is modelled by its position `pos`; a read of `n` bytes from a
file whose on-disk content is exactly `fileSize` bytes returns
`min n (fileSize - pos)` bytes and advances the position by that amount.
The backend calls issued are recorded as a list of `ChunkCall`s; the
defensive `raise UploadError("Unexpected end of file during chunked upload")`
at line 229 (reached only if the `while` loop exits without a finish call)
is the `eofError` constructor. -/

/-- One backend session call with the number of payload bytes it carries. -/
inductive ChunkCall where
  | start (nbytes : Nat)
  | append (nbytes : Nat)
  | finish (nbytes : Nat)
deriving DecidableEq, Repr

/-- Result of `_upload_large_file`: either the finish call returned metadata
(`finished`), or the loop exited and the defensive `UploadError` was raised
(`eofError`).  Both record the calls issued. -/
inductive LargeResult where
  | finished (calls : List ChunkCall)
  | eofError (calls : List ChunkCall)
deriving DecidableEq, Repr

/-- Prepend a call to the recorded call list of a result. -/
def pushCall (c : ChunkCall) : LargeResult → LargeResult
  | .finished cs => .finished (c :: cs)
  | .eofError cs => .eofError (c :: cs)

/-- The `while f.tell() < file_size` loop of lines 209-227, starting at file
position `pos`.  `remaining = file_size - f.tell()`; a final chunk
(`remaining <= CHUNK_SIZE`) is sent with `files_upload_session_finish` and
returned; otherwise `CHUNK_SIZE` bytes go to `files_upload_session_append_v2`
and the position advances.  Falling out of the loop reaches line 229. -/
def sessionLoop (fileSize pos : Nat) : LargeResult :=
  if _h : pos < fileSize then
    if fileSize - pos ≤ CHUNK_SIZE then
      .finished [ChunkCall.finish (fileSize - pos)]
    else
      pushCall (.append CHUNK_SIZE) (sessionLoop fileSize (pos + CHUNK_SIZE))
  else
    .eofError []
termination_by fileSize - pos
decreasing_by
  have hc : 0 < CHUNK_SIZE := by decide
  omega

/-- `_upload_large_file` for a file whose on-disk content is exactly
`fileSize` bytes: line 201 reads `min CHUNK_SIZE fileSize` bytes for the
start-session call, then the loop runs from that position. -/
def uploadLargeFileCalls (fileSize : Nat) : LargeResult :=
  pushCall (.start (min CHUNK_SIZE fileSize)) (sessionLoop fileSize (min CHUNK_SIZE fileSize))

/-- Payload size of a session call. -/
def callBytes : ChunkCall → Nat
  | .start n => n
  | .append n => n
  | .finish n => n

/-- Total bytes sent across all recorded session calls. -/
def totalBytes (cs : List ChunkCall) : Nat := (cs.map callBytes).sum

def isFinishCall : ChunkCall → Bool
  | .finish _ => true
  | _ => false

/-- Number of finish calls among the recorded session calls. -/
def numFinish (cs : List ChunkCall) : Nat := (cs.filter isFinishCall).length

/-- Every append call carries exactly `CHUNK_SIZE` bytes. -/
def appendsAllChunkSize (cs : List ChunkCall) : Bool :=
  cs.all fun c => match c with
    | .append n => n == CHUNK_SIZE
    | _ => true

theorem sessionLoop_spec : ∀ (n fileSize pos : Nat), fileSize - pos ≤ n →
    pos < fileSize →
    ∃ cs, sessionLoop fileSize pos = .finished cs ∧
      totalBytes cs = fileSize - pos ∧
      numFinish cs = 1 ∧
      appendsAllChunkSize cs = true
  | 0, fileSize, pos, hn, hlt => by omega
  | n + 1, fileSize, pos, hn, hlt => by
    rw [sessionLoop]
    rw [dif_pos hlt]
    by_cases hfin : fileSize - pos ≤ CHUNK_SIZE
    · rw [if_pos hfin]
      exact ⟨[ChunkCall.finish (fileSize - pos)], rfl,
        by simp [totalBytes, callBytes],
        by simp [numFinish, isFinishCall],
        by simp [appendsAllChunkSize]⟩
    · rw [if_neg hfin]
      have hc : 0 < CHUNK_SIZE := by decide
      obtain ⟨cs, hcs, htot, hfin1, happ⟩ :=
        sessionLoop_spec n fileSize (pos + CHUNK_SIZE) (by omega) (by omega)
      refine ⟨ChunkCall.append CHUNK_SIZE :: cs, ?_, ?_, ?_, ?_⟩
      · rw [hcs]; rfl
      · simp only [totalBytes, List.map_cons, List.sum_cons, callBytes] at htot ⊢
        omega
      · simpa [numFinish, isFinishCall] using hfin1
      · simpa [appendsAllChunkSize] using happ

/-- C1: for every file whose size `s` exceeds the 150 MiB threshold (and
whose on-disk content has exactly `s` bytes, which is built into the read
model), `_upload_large_file` issues one start-session call carrying the
first 4 MiB, zero or more append calls each carrying exactly 4 MiB, and
exactly one finish call, the total bytes sent equalling `s`; the result is
`finished`, so the defensive `UploadError("Unexpected end of file during
chunked upload")` branch (line 229) is never reached. -/
theorem c1_large_file_chunking (s : Nat) (h : 150 * 1024 * 1024 < s) :
    ∃ cs, uploadLargeFileCalls s = LargeResult.finished (ChunkCall.start CHUNK_SIZE :: cs) ∧
      totalBytes (ChunkCall.start CHUNK_SIZE :: cs) = s ∧
      numFinish (ChunkCall.start CHUNK_SIZE :: cs) = 1 ∧
      appendsAllChunkSize (ChunkCall.start CHUNK_SIZE :: cs) = true ∧
      ∀ cs2, uploadLargeFileCalls s ≠ LargeResult.eofError cs2 := by
  have hcs : CHUNK_SIZE < s := by
    have : CHUNK_SIZE ≤ 150 * 1024 * 1024 := by decide
    omega
  have hmin : min CHUNK_SIZE s = CHUNK_SIZE := Nat.min_eq_left (Nat.le_of_lt hcs)
  obtain ⟨cs, hloop, htot, hfin, happ⟩ :=
    sessionLoop_spec (s - CHUNK_SIZE) s CHUNK_SIZE (Nat.le_refl _) hcs
  refine ⟨cs, ?_, ?_, ?_, ?_, ?_⟩
  · unfold uploadLargeFileCalls
    rw [hmin, hloop]
    rfl
  · simp only [totalBytes, List.map_cons, List.sum_cons, callBytes] at htot ⊢
    omega
  · simpa [numFinish, isFinishCall] using hfin
  · simpa [appendsAllChunkSize] using happ
  · intro cs2
    unfold uploadLargeFileCalls
    rw [hmin, hloop]
    intro hcontra
    exact LargeResult.noConfusion hcontra

/-- Witness for C1 at the smallest large-file size, 150 MiB + 1 byte. -/
theorem c1_large_file_chunking_witness :
    150 * 1024 * 1024 < 157286401 ∧
    ∃ cs, uploadLargeFileCalls 157286401
        = LargeResult.finished (ChunkCall.start CHUNK_SIZE :: cs) ∧
      totalBytes (ChunkCall.start CHUNK_SIZE :: cs) = 157286401 ∧
      numFinish (ChunkCall.start CHUNK_SIZE :: cs) = 1 ∧
      appendsAllChunkSize (ChunkCall.start CHUNK_SIZE :: cs) = true ∧
      ∀ cs2, uploadLargeFileCalls 157286401 ≠ LargeResult.eofError cs2 :=
  ⟨by decide, c1_large_file_chunking 157286401 (by decide)⟩

/-! ## Upload engine: validation, dispatch and retry loop (`upload`, lines 262-356)

One attempt (lines 307-312) runs the chosen strategy against the backend;
what matters to the retry loop is only which exception, if any, escapes the
attempt.  That is abstracted as `AttemptResult`, supplied per attempt number
by a behaviour function `behav : Nat → AttemptResult`.  The constructors of
`AttemptErr` mirror the exception classes the `except` chain of lines
317-354 distinguishes:

* `authErr`: `dropbox.exceptions.AuthError` raised directly by a backend call
  (line 317);
* `apiErr`: `dropbox.exceptions.ApiError`, carrying `str(e.error)` (line 320);
* `connErr`: `ConnectionError` / `TimeoutError` (line 340);
* `verifyAuthErr`: the uploader's own `AuthenticationError` raised by
  `_verify_connection` (line 125) or by the `client` property (line 107) when
  credentials are rejected at connection time.  It is not a
  `dropbox.exceptions.AuthError`, so in `upload` it is caught only by the
  catch-all `except Exception` (line 348);
* `otherErr`: any other exception (line 348).

Observable side effects are recorded as `Event`s: the start of each attempt
(tagged with the strategy chosen at line 309) and each `time.sleep` call. -/

inductive AttemptErr where
  | authErr (msg : String)
  | apiErr (errMsg : String)
  | connErr (msg : String)
  | verifyAuthErr (msg : String)
  | otherErr (msg : String)
deriving DecidableEq, Repr

/-- The message carried by an attempt failure. -/
def errMsg : AttemptErr → String
  | .authErr m => m
  | .apiErr m => m
  | .connErr m => m
  | .verifyAuthErr m => m
  | .otherErr m => m

inductive AttemptResult where
  | ok (pathDisplay : String)
  | err (e : AttemptErr)
deriving DecidableEq, Repr

inductive UploadStrategy where
  | small
  | large
deriving DecidableEq, Repr

/-- Terminal outcome of `upload`: the returned display path, or the typed
exception it raises (`FileNotFoundError`, `AuthenticationError`,
`UploadError`). -/
inductive UploadOutcome where
  | success (path : String)
  | notFound (msg : String)
  | authFailed (msg : String)
  | uploadFailed (msg : String)
deriving DecidableEq, Repr

inductive Event where
  | attempt (n : Nat) (strat : UploadStrategy)
  | sleep (secs : Nat)
deriving DecidableEq, Repr

/-- Python `pat in s.lower()` on strings (lines 325 and 331 lowercase the
message before the containment test). -/
def lowerContains (pat s : String) : Bool :=
  containsL pat.data (s.data.map Char.toLower)

/-- Case-sensitive Python `pat in s` on strings. -/
def strContains (pat s : String) : Bool := containsL pat.data s.data

/-- The small/large dispatch of line 309: the small-file path is taken
exactly when `file_size <= 150 * 1024 * 1024`. -/
def chooseStrategy (fileSize : Nat) : UploadStrategy :=
  if fileSize ≤ 150 * 1024 * 1024 then .small else .large

/-- The `for attempt in range(1, MAX_RETRIES + 1)` loop of lines 305-356,
compiled with the number of remaining iterations as the structural fuel
(`upload` enters with `attempt = 1`, `fuel = MAX_RETRIES`); running out of
iterations is the fall-through `raise UploadError` of line 356.  `lastErr`
carries the message of `last_error`.  Branches, in the order of the source:
success returns the display path (line 315); `AuthError` raises
`AuthenticationError` (lines 317-318); `ApiError` checks `path/conflict`
(retry without sleeping when overwrite, else raise, lines 325-329), then
`insufficient_space` (line 331), then retries with a sleep while attempts
remain (lines 334-338); `ConnectionError`/`TimeoutError` and the catch-all
retry with a sleep while attempts remain (lines 340-354). -/
def retryLoop (behav : Nat → AttemptResult) (overwrite : Bool) (dropboxPath : String)
    (strat : UploadStrategy) : Nat → Nat → String → UploadOutcome × List Event
  | _, 0, lastErr =>
    (.uploadFailed ("Upload failed after 3 attempts: " ++ lastErr), [])
  | attempt, fuel + 1, _ =>
    match behav attempt with
    | .ok p => (.success p, [Event.attempt attempt strat])
    | .err (.authErr m) =>
      (.authFailed ("Authentication failed: " ++ m), [Event.attempt attempt strat])
    | .err (.apiErr m) =>
      if lowerContains "path/conflict" m then
        if overwrite then
          let r := retryLoop behav overwrite dropboxPath strat (attempt + 1) fuel m
          (r.1, Event.attempt attempt strat :: r.2)
        else
          (.uploadFailed ("File already exists at " ++ dropboxPath),
            [Event.attempt attempt strat])
      else if lowerContains "insufficient_space" m then
        (.uploadFailed "Insufficient space in Dropbox account",
          [Event.attempt attempt strat])
      else if attempt < MAX_RETRIES then
        let r := retryLoop behav overwrite dropboxPath strat (attempt + 1) fuel m
        (r.1, Event.attempt attempt strat :: Event.sleep RETRY_DELAY :: r.2)
      else
        (.uploadFailed ("Upload failed after 3 attempts: " ++ m),
          [Event.attempt attempt strat])
    | .err (.connErr m) =>
      if attempt < MAX_RETRIES then
        let r := retryLoop behav overwrite dropboxPath strat (attempt + 1) fuel m
        (r.1, Event.attempt attempt strat :: Event.sleep RETRY_DELAY :: r.2)
      else
        (.uploadFailed ("Connection failed after 3 attempts: " ++ m),
          [Event.attempt attempt strat])
    | .err (.verifyAuthErr m) =>
      if attempt < MAX_RETRIES then
        let r := retryLoop behav overwrite dropboxPath strat (attempt + 1) fuel m
        (r.1, Event.attempt attempt strat :: Event.sleep RETRY_DELAY :: r.2)
      else
        (.uploadFailed ("Upload failed: " ++ m), [Event.attempt attempt strat])
    | .err (.otherErr m) =>
      if attempt < MAX_RETRIES then
        let r := retryLoop behav overwrite dropboxPath strat (attempt + 1) fuel m
        (r.1, Event.attempt attempt strat :: Event.sleep RETRY_DELAY :: r.2)
      else
        (.uploadFailed ("Upload failed: " ++ m), [Event.attempt attempt strat])

/-- The resolved local file as `upload` observes it: the string form of the
resolved path, its basename (`file_path.name`), the results of
`file_path.exists()` and `file_path.is_file()`, and `file_path.stat().st_size`. -/
structure LocalFile where
  pathStr : String
  name : String
  doesExist : Bool
  isFile : Bool
  size : Nat
deriving DecidableEq, Repr

/-- `DropboxUploader.upload` (lines 262-356): validate the local file
(lines 288-292, before any client or backend interaction), compute the
canonical remote path (lines 295-296), then run the retry loop with the
strategy dispatched on the file size. -/
def uploadModel (f : LocalFile) (dropboxFolder : String) (filename : Option String)
    (overwrite : Bool) (behav : Nat → AttemptResult) : UploadOutcome × List Event :=
  if !f.doesExist then
    (.notFound ("File not found: " ++ f.pathStr), [])
  else if !f.isFile then
    (.notFound ("Path is not a file: " ++ f.pathStr), [])
  else
    let destFilename := filename.getD f.name
    let dropboxPath := normalize_dropbox_path (dropboxFolder ++ "/" ++ destFilename)
    retryLoop behav overwrite dropboxPath (chooseStrategy f.size) 1 MAX_RETRIES ""

def isAttemptEvent : Event → Bool
  | .attempt _ _ => true
  | _ => false

/-- Number of attempts started. -/
def numAttempts (evs : List Event) : Nat := (evs.filter isAttemptEvent).length

def isSleepEvent : Event → Bool
  | .sleep _ => true
  | _ => false

/-- Number of inter-attempt delays observed. -/
def numSleeps (evs : List Event) : Nat := (evs.filter isSleepEvent).length

/-- Every observed delay is exactly `RETRY_DELAY` seconds. -/
def sleepsAllFixedDelay (evs : List Event) : Bool :=
  evs.all fun e => match e with
    | .sleep n => n == RETRY_DELAY
    | _ => true

/-- Every attempt event carries the given strategy. -/
def attemptsAllStrategy (strat : UploadStrategy) (evs : List Event) : Bool :=
  evs.all fun e => match e with
    | .attempt _ st => st == strat
    | _ => true

/-- The failure classification of the `except` chain (lines 317-354), given
the overwrite flag: `true` exactly when the loop would proceed to another
attempt rather than raise at once (assuming attempts remain). -/
def isRetryable (overwrite : Bool) : AttemptErr → Bool
  | .authErr _ => false
  | .apiErr m =>
    if lowerContains "path/conflict" m then overwrite
    else !(lowerContains "insufficient_space" m)
  | .connErr _ => true
  | .verifyAuthErr _ => true
  | .otherErr _ => true

/-- An `ApiError` whose message reports a path conflict (line 325). -/
def isConflictErr : AttemptErr → Bool
  | .apiErr m => lowerContains "path/conflict" m
  | _ => false

theorem startsWithL_refl : ∀ l : List Char, startsWithL l l = true
  | [] => rfl
  | c :: cs => by simp [startsWithL, startsWithL_refl cs]

theorem containsL_append_self : ∀ (pre pat : List Char), containsL pat (pre ++ pat) = true
  | [], [] => rfl
  | [], c :: cs => by
    simp only [List.nil_append, containsL, Bool.or_eq_true]
    exact Or.inl (startsWithL_refl (c :: cs))
  | c :: pre, pat => by
    simp only [List.cons_append, containsL, Bool.or_eq_true]
    exact Or.inr (containsL_append_self pre pat)

/-- A string is a substring of any string that ends with it. -/
theorem strContains_append_self (pre m : String) : strContains m (pre ++ m) = true := by
  unfold strContains
  rw [String.data_append]
  exact containsL_append_self pre.data m.data

/-- If the file validates, `upload` runs the retry loop from attempt 1 with
`MAX_RETRIES` iterations available, on the canonical remote path and the
size-dispatched strategy. -/
theorem uploadModel_valid (f : LocalFile) (hE : f.doesExist = true) (hF : f.isFile = true)
    (folder : String) (fn : Option String) (ov : Bool) (behav : Nat → AttemptResult) :
    uploadModel f folder fn ov behav =
      retryLoop behav ov (normalize_dropbox_path (folder ++ "/" ++ fn.getD f.name))
        (chooseStrategy f.size) 1 MAX_RETRIES "" := by
  simp [uploadModel, hE, hF]

/-- A retryable, non-conflict failure with attempts remaining: the loop
sleeps the fixed delay and proceeds to the next attempt. -/
theorem retryLoop_step_sleep (behav : Nat → AttemptResult) (ov : Bool) (db : String)
    (strat : UploadStrategy) (attempt fuel : Nat) (lastErr : String) (e : AttemptErr)
    (hb : behav attempt = .err e) (hr : isRetryable ov e = true)
    (hnc : isConflictErr e = false) (hlt : attempt < MAX_RETRIES) :
    retryLoop behav ov db strat attempt (fuel + 1) lastErr =
      ((retryLoop behav ov db strat (attempt + 1) fuel (errMsg e)).1,
        Event.attempt attempt strat :: Event.sleep RETRY_DELAY ::
          (retryLoop behav ov db strat (attempt + 1) fuel (errMsg e)).2) := by
  rw [retryLoop, hb]
  cases e with
  | authErr m => simp [isRetryable] at hr
  | apiErr m =>
    simp only [isConflictErr] at hnc
    have hins : lowerContains "insufficient_space" m = false := by
      simpa [isRetryable, hnc] using hr
    simp [hnc, hlt, errMsg, hins]
  | connErr m => simp [hlt, errMsg]
  | verifyAuthErr m => simp [hlt, errMsg]
  | otherErr m => simp [hlt, errMsg]

/-- A path-conflict failure with overwrite enabled: the loop proceeds to the
next attempt at once, with no sleep. -/
theorem retryLoop_step_conflict (behav : Nat → AttemptResult) (ov : Bool) (db : String)
    (strat : UploadStrategy) (attempt fuel : Nat) (lastErr m : String)
    (hb : behav attempt = .err (.apiErr m))
    (hc : lowerContains "path/conflict" m = true) (hov : ov = true) :
    retryLoop behav ov db strat attempt (fuel + 1) lastErr =
      ((retryLoop behav ov db strat (attempt + 1) fuel m).1,
        Event.attempt attempt strat :: (retryLoop behav ov db strat (attempt + 1) fuel m).2) := by
  subst hov
  rw [retryLoop, hb]
  simp [hc]

/-- Outcome of a retryable failure with attempts remaining: whatever the
remaining attempts produce. -/
theorem retryLoop_step_outcome (behav : Nat → AttemptResult) (ov : Bool) (db : String)
    (strat : UploadStrategy) (attempt fuel : Nat) (lastErr : String) (e : AttemptErr)
    (hb : behav attempt = .err e) (hr : isRetryable ov e = true)
    (hlt : attempt < MAX_RETRIES) :
    (retryLoop behav ov db strat attempt (fuel + 1) lastErr).1 =
      (retryLoop behav ov db strat (attempt + 1) fuel (errMsg e)).1 := by
  by_cases hc : isConflictErr e = true
  · cases e with
    | apiErr m =>
      simp only [isConflictErr] at hc
      have hov : ov = true := by simpa [isRetryable, hc] using hr
      rw [retryLoop_step_conflict behav ov db strat attempt fuel lastErr m hb hc hov]
      simp [errMsg]
    | authErr m => simp [isConflictErr] at hc
    | connErr m => simp [isConflictErr] at hc
    | verifyAuthErr m => simp [isConflictErr] at hc
    | otherErr m => simp [isConflictErr] at hc
  · rw [retryLoop_step_sleep behav ov db strat attempt fuel lastErr e hb hr
      (Bool.of_not_eq_true hc) hlt]

/-- A retryable failure on the final allowed attempt (attempt 3, one
iteration left): the call raises `UploadError` whose message contains the
last cause's message. -/
theorem retryLoop_final (behav : Nat → AttemptResult) (ov : Bool) (db : String)
    (strat : UploadStrategy) (lastErr : String) (e : AttemptErr)
    (hb : behav 3 = .err e) (hr : isRetryable ov e = true) :
    ∃ w, (retryLoop behav ov db strat 3 1 lastErr).1 = .uploadFailed w ∧
      strContains (errMsg e) w = true := by
  rw [retryLoop, hb]
  cases e with
  | authErr m => simp [isRetryable] at hr
  | apiErr m =>
    by_cases hc : lowerContains "path/conflict" m = true
    · have hov : ov = true := by simpa [isRetryable, hc] using hr
      subst hov
      refine ⟨"Upload failed after 3 attempts: " ++ m, ?_, ?_⟩
      · simp only [hc, if_true, Bool.true_eq]
        rw [retryLoop]
      · exact strContains_append_self "Upload failed after 3 attempts: " m
    · have hins : lowerContains "insufficient_space" m = false := by
        simpa [isRetryable, hc] using hr
      refine ⟨"Upload failed after 3 attempts: " ++ m, ?_,
        strContains_append_self "Upload failed after 3 attempts: " m⟩
      have h33 : ¬ (3 < MAX_RETRIES) := by decide
      simp [hc, hins, h33, errMsg]
  | connErr m =>
    refine ⟨"Connection failed after 3 attempts: " ++ m, ?_,
      strContains_append_self "Connection failed after 3 attempts: " m⟩
    have h33 : ¬ (3 < MAX_RETRIES) := by decide
    simp [h33, errMsg]
  | verifyAuthErr m =>
    refine ⟨"Upload failed: " ++ m, ?_, strContains_append_self "Upload failed: " m⟩
    have h33 : ¬ (3 < MAX_RETRIES) := by decide
    simp [h33, errMsg]
  | otherErr m =>
    refine ⟨"Upload failed: " ++ m, ?_, strContains_append_self "Upload failed: " m⟩
    have h33 : ¬ (3 < MAX_RETRIES) := by decide
    simp [h33, errMsg]

/-- Every event the retry loop can emit: an attempt tagged with the
dispatched strategy, or a sleep of exactly `RETRY_DELAY` seconds. -/
def eventWellFormed (strat : UploadStrategy) : Event → Bool
  | .attempt _ st => st == strat
  | .sleep n => n == RETRY_DELAY

theorem numAttempts_nil : numAttempts [] = 0 := rfl

theorem numAttempts_attempt_cons (n : Nat) (st : UploadStrategy) (evs : List Event) :
    numAttempts (Event.attempt n st :: evs) = numAttempts evs + 1 := by
  simp [numAttempts, isAttemptEvent]

theorem numAttempts_sleep_cons (n : Nat) (evs : List Event) :
    numAttempts (Event.sleep n :: evs) = numAttempts evs := by
  simp [numAttempts, isAttemptEvent]

theorem retryLoop_trace_invariants : ∀ (fuel : Nat) (behav : Nat → AttemptResult) (ov : Bool)
    (db : String) (strat : UploadStrategy) (attempt : Nat) (lastErr : String),
    numAttempts (retryLoop behav ov db strat attempt fuel lastErr).2 ≤ fuel ∧
    (retryLoop behav ov db strat attempt fuel lastErr).2.all (eventWellFormed strat) = true
  | 0, behav, ov, db, strat, attempt, lastErr => by
    rw [retryLoop]
    simp [numAttempts]
  | fuel + 1, behav, ov, db, strat, attempt, lastErr => by
    rw [retryLoop]
    cases hb : behav attempt with
    | ok p => simp [numAttempts, isAttemptEvent, eventWellFormed]
    | err e =>
      cases e with
      | authErr m => simp [numAttempts, isAttemptEvent, eventWellFormed]
      | apiErr m =>
        dsimp only
        by_cases hc : lowerContains "path/conflict" m = true
        · by_cases hov : ov = true
          · subst hov
            have ih := retryLoop_trace_invariants fuel behav true db strat (attempt + 1) m
            have h1 := ih.1
            rw [if_pos hc, if_pos rfl]
            dsimp only
            refine ⟨?_, ?_⟩
            · rw [numAttempts_attempt_cons]
              omega
            · simp [List.all_cons, eventWellFormed, ih.2]
          · rw [if_pos hc, if_neg hov]
            simp [numAttempts, isAttemptEvent, eventWellFormed]
        · by_cases hi : lowerContains "insufficient_space" m = true
          · rw [if_neg hc, if_pos hi]
            simp [numAttempts, isAttemptEvent, eventWellFormed]
          · by_cases hlt : attempt < MAX_RETRIES
            · have ih := retryLoop_trace_invariants fuel behav ov db strat (attempt + 1) m
              have h1 := ih.1
              rw [if_neg hc, if_neg hi, if_pos hlt]
              dsimp only
              refine ⟨?_, ?_⟩
              · rw [numAttempts_attempt_cons, numAttempts_sleep_cons]
                omega
              · simp [List.all_cons, eventWellFormed, ih.2]
            · rw [if_neg hc, if_neg hi, if_neg hlt]
              simp [numAttempts, isAttemptEvent, eventWellFormed]
      | connErr m =>
        dsimp only
        by_cases hlt : attempt < MAX_RETRIES
        · have ih := retryLoop_trace_invariants fuel behav ov db strat (attempt + 1) m
          have h1 := ih.1
          rw [if_pos hlt]
          dsimp only
          refine ⟨?_, ?_⟩
          · rw [numAttempts_attempt_cons, numAttempts_sleep_cons]
            omega
          · simp [List.all_cons, eventWellFormed, ih.2]
        · rw [if_neg hlt]
          simp [numAttempts, isAttemptEvent, eventWellFormed]
      | verifyAuthErr m =>
        dsimp only
        by_cases hlt : attempt < MAX_RETRIES
        · have ih := retryLoop_trace_invariants fuel behav ov db strat (attempt + 1) m
          have h1 := ih.1
          rw [if_pos hlt]
          dsimp only
          refine ⟨?_, ?_⟩
          · rw [numAttempts_attempt_cons, numAttempts_sleep_cons]
            omega
          · simp [List.all_cons, eventWellFormed, ih.2]
        · rw [if_neg hlt]
          simp [numAttempts, isAttemptEvent, eventWellFormed]
      | otherErr m =>
        dsimp only
        by_cases hlt : attempt < MAX_RETRIES
        · have ih := retryLoop_trace_invariants fuel behav ov db strat (attempt + 1) m
          have h1 := ih.1
          rw [if_pos hlt]
          dsimp only
          refine ⟨?_, ?_⟩
          · rw [numAttempts_attempt_cons, numAttempts_sleep_cons]
            omega
          · simp [List.all_cons, eventWellFormed, ih.2]
        · rw [if_neg hlt]
          simp [numAttempts, isAttemptEvent, eventWellFormed]

theorem retryLoop_all_sleeps_fixed (fuel : Nat) (behav : Nat → AttemptResult) (ov : Bool)
    (db : String) (strat : UploadStrategy) (attempt : Nat) (lastErr : String) :
    sleepsAllFixedDelay (retryLoop behav ov db strat attempt fuel lastErr).2 = true := by
  have h := (retryLoop_trace_invariants fuel behav ov db strat attempt lastErr).2
  rw [List.all_eq_true] at h
  unfold sleepsAllFixedDelay
  rw [List.all_eq_true]
  intro e he
  have hw := h e he
  cases e with
  | attempt n st => rfl
  | sleep n => simpa [eventWellFormed] using hw

theorem retryLoop_all_attempts_strategy (fuel : Nat) (behav : Nat → AttemptResult) (ov : Bool)
    (db : String) (strat : UploadStrategy) (attempt : Nat) (lastErr : String) :
    attemptsAllStrategy strat (retryLoop behav ov db strat attempt fuel lastErr).2 = true := by
  have h := (retryLoop_trace_invariants fuel behav ov db strat attempt lastErr).2
  rw [List.all_eq_true] at h
  unfold attemptsAllStrategy
  rw [List.all_eq_true]
  intro e he
  have hw := h e he
  cases e with
  | attempt n st => simpa [eventWellFormed] using hw
  | sleep n => rfl

/-- A successful attempt returns the backend-confirmed display path at once. -/
theorem retryLoop_ok (behav : Nat → AttemptResult) (ov : Bool) (db : String)
    (strat : UploadStrategy) (attempt fuel : Nat) (lastErr p : String)
    (hb : behav attempt = .ok p) :
    retryLoop behav ov db strat attempt (fuel + 1) lastErr =
      (.success p, [Event.attempt attempt strat]) := by
  rw [retryLoop, hb]

/-- Retryable failures on attempts 1 and 2, success on attempt 3: the loop
returns attempt 3's confirmed path. -/
theorem retryLoop_third_attempt_success (behav : Nat → AttemptResult) (ov : Bool)
    (db : String) (strat : UploadStrategy) (e1 e2 : AttemptErr) (p : String)
    (hb1 : behav 1 = .err e1) (hr1 : isRetryable ov e1 = true)
    (hb2 : behav 2 = .err e2) (hr2 : isRetryable ov e2 = true)
    (hb3 : behav 3 = .ok p) :
    (retryLoop behav ov db strat 1 MAX_RETRIES "").1 = .success p :=
  calc (retryLoop behav ov db strat 1 MAX_RETRIES "").1
      = (retryLoop behav ov db strat 2 2 (errMsg e1)).1 :=
        retryLoop_step_outcome behav ov db strat 1 2 "" e1 hb1 hr1 (by decide)
    _ = (retryLoop behav ov db strat 3 1 (errMsg e2)).1 :=
        retryLoop_step_outcome behav ov db strat 2 1 (errMsg e1) e2 hb2 hr2 (by decide)
    _ = .success p :=
        congrArg Prod.fst (retryLoop_ok behav ov db strat 3 0 (errMsg e2) p hb3)

/-- Retryable failures on all three attempts: the loop raises `UploadError`
wrapping the last cause. -/
theorem retryLoop_exhausted (behav : Nat → AttemptResult) (ov : Bool)
    (db : String) (strat : UploadStrategy) (e1 e2 e3 : AttemptErr)
    (hb1 : behav 1 = .err e1) (hr1 : isRetryable ov e1 = true)
    (hb2 : behav 2 = .err e2) (hr2 : isRetryable ov e2 = true)
    (hb3 : behav 3 = .err e3) (hr3 : isRetryable ov e3 = true) :
    ∃ w, (retryLoop behav ov db strat 1 MAX_RETRIES "").1 = .uploadFailed w ∧
      strContains (errMsg e3) w = true := by
  obtain ⟨w, hw, hcont⟩ := retryLoop_final behav ov db strat (errMsg e2) e3 hb3 hr3
  refine ⟨w, ?_, hcont⟩
  calc (retryLoop behav ov db strat 1 MAX_RETRIES "").1
      = (retryLoop behav ov db strat 2 2 (errMsg e1)).1 :=
        retryLoop_step_outcome behav ov db strat 1 2 "" e1 hb1 hr1 (by decide)
    _ = (retryLoop behav ov db strat 3 1 (errMsg e2)).1 :=
        retryLoop_step_outcome behav ov db strat 2 1 (errMsg e1) e2 hb2 hr2 (by decide)
    _ = .uploadFailed w := hw

/-- C2: every upload call performs at most 3 attempts in total; a failure
classified retryable on attempts 1 and 2 followed by success on attempt 3
returns that attempt's confirmed remote path; a retryable failure on the 3rd
(final allowed) attempt makes the call fail with `UploadError` whose message
wraps the last cause's message. -/
theorem c2_bounded_retry :
    (∀ (f : LocalFile) (folder : String) (fn : Option String) (ov : Bool)
        (behav : Nat → AttemptResult),
      numAttempts (uploadModel f folder fn ov behav).2 ≤ 3) ∧
    (∀ (f : LocalFile) (folder : String) (fn : Option String) (ov : Bool)
        (behav : Nat → AttemptResult) (e1 e2 : AttemptErr) (p : String),
      f.doesExist = true → f.isFile = true →
      behav 1 = .err e1 → isRetryable ov e1 = true →
      behav 2 = .err e2 → isRetryable ov e2 = true →
      behav 3 = .ok p →
      (uploadModel f folder fn ov behav).1 = .success p) ∧
    (∀ (f : LocalFile) (folder : String) (fn : Option String) (ov : Bool)
        (behav : Nat → AttemptResult) (e1 e2 e3 : AttemptErr),
      f.doesExist = true → f.isFile = true →
      behav 1 = .err e1 → isRetryable ov e1 = true →
      behav 2 = .err e2 → isRetryable ov e2 = true →
      behav 3 = .err e3 → isRetryable ov e3 = true →
      ∃ w, (uploadModel f folder fn ov behav).1 = .uploadFailed w ∧
        strContains (errMsg e3) w = true) := by
  refine ⟨?_, ?_, ?_⟩
  · intro f folder fn ov behav
    unfold uploadModel
    cases hE : f.doesExist with
    | false => simp [numAttempts]
    | true =>
      cases hF : f.isFile with
      | false => simp [numAttempts]
      | true =>
        simp only [Bool.not_true, Bool.false_eq_true, if_false]
        exact (retryLoop_trace_invariants MAX_RETRIES behav ov _ _ 1 "").1
  · intro f folder fn ov behav e1 e2 p hE hF hb1 hr1 hb2 hr2 hb3
    rw [uploadModel_valid f hE hF]
    exact retryLoop_third_attempt_success behav ov _ _ e1 e2 p hb1 hr1 hb2 hr2 hb3
  · intro f folder fn ov behav e1 e2 e3 hE hF hb1 hr1 hb2 hr2 hb3 hr3
    rw [uploadModel_valid f hE hF]
    exact retryLoop_exhausted behav ov _ _ e1 e2 e3 hb1 hr1 hb2 hr2 hb3 hr3

/-- Behaviour for the C2 witness: connection errors on attempts 1 and 2,
success on attempt 3. -/
def behavC2w : Nat → AttemptResult := fun n =>
  if n = 3 then .ok "/Reports/r.md" else .err (.connErr "timeout")

/-- Witness for C2 at a concrete behaviour. -/
theorem c2_bounded_retry_witness :
    (uploadModel ⟨"/tmp/r.md", "r.md", true, true, 10⟩ "/Reports" none true behavC2w).1 =
      UploadOutcome.success "/Reports/r.md" :=
  c2_bounded_retry.2.1 ⟨"/tmp/r.md", "r.md", true, true, 10⟩ "/Reports" none true behavC2w
    (.connErr "timeout") (.connErr "timeout") "/Reports/r.md" rfl rfl rfl rfl rfl rfl rfl

/-- C5: the engine selects the small-file path exactly when the file size is
at most 157,286,400 bytes (150 MiB) and the large-file path exactly when it
is larger; boundary checks at 150 MiB and 150 MiB + 1; and every attempt an
upload call starts is run with the strategy dispatched from the file size. -/
theorem c5_threshold_dispatch :
    (∀ s : Nat, s ≤ 157286400 → chooseStrategy s = .small) ∧
    (∀ s : Nat, 157286400 < s → chooseStrategy s = .large) ∧
    chooseStrategy 157286400 = .small ∧
    chooseStrategy 157286401 = .large ∧
    (∀ (f : LocalFile) (folder : String) (fn : Option String) (ov : Bool)
        (behav : Nat → AttemptResult),
      attemptsAllStrategy (chooseStrategy f.size) (uploadModel f folder fn ov behav).2 = true) := by
  refine ⟨?_, ?_, by decide, by decide, ?_⟩
  · intro s hs
    unfold chooseStrategy
    rw [if_pos (by omega : s ≤ 150 * 1024 * 1024)]
  · intro s hs
    unfold chooseStrategy
    rw [if_neg (by omega : ¬ s ≤ 150 * 1024 * 1024)]
  · intro f folder fn ov behav
    unfold uploadModel
    cases hE : f.doesExist with
    | false => simp [attemptsAllStrategy]
    | true =>
      cases hF : f.isFile with
      | false => simp [attemptsAllStrategy]
      | true =>
        simp only [Bool.not_true, Bool.false_eq_true, if_false]
        exact retryLoop_all_attempts_strategy MAX_RETRIES behav ov _ _ 1 ""

/-- Witness for C5 at the boundary size 150 MiB + 1. -/
theorem c5_threshold_dispatch_witness :
    chooseStrategy 157286401 = UploadStrategy.large :=
  c5_threshold_dispatch.2.1 157286401 (by decide)

/-- C6: when the resolved local path does not exist, or exists but is not a
regular file, `upload` raises `FileNotFoundError` at once (lines 288-292,
before the client is touched or the retry loop is entered): the outcome is
`notFound` and the event trace is empty — no attempt is started, no sleep
happens, and the behaviour function (the backend) is never consulted, for
every possible backend behaviour. -/
theorem c6_missing_file_notFound :
    (∀ (pathStr nm : String) (isF : Bool) (sz : Nat) (folder : String)
        (fn : Option String) (ov : Bool) (behav : Nat → AttemptResult),
      uploadModel ⟨pathStr, nm, false, isF, sz⟩ folder fn ov behav =
        (UploadOutcome.notFound ("File not found: " ++ pathStr), [])) ∧
    (∀ (pathStr nm : String) (sz : Nat) (folder : String)
        (fn : Option String) (ov : Bool) (behav : Nat → AttemptResult),
      uploadModel ⟨pathStr, nm, true, false, sz⟩ folder fn ov behav =
        (UploadOutcome.notFound ("Path is not a file: " ++ pathStr), [])) :=
  ⟨fun _ _ _ _ _ _ _ _ => rfl, fun _ _ _ _ _ _ _ => rfl⟩

/-- Local file used by the concrete engine runs below. -/
def fileOk : LocalFile :=
  { pathStr := "/home/user/report.md", name := "report.md",
    doesExist := true, isFile := true, size := 1024 }

/-- Behaviour refuting C3: attempt 1 fails with the uploader's own
`AuthenticationError`, raised by `_verify_connection` when the backend
rejects the credentials at connection time (lines 114, 124-125); attempt 2
fails with the backend's `AuthError` directly (the client was cached at line
98/112 before verification, so the next attempt reaches `files_upload`). -/
def behavC3 : Nat → AttemptResult := fun n =>
  if n = 1 then .err (.verifyAuthErr "Invalid Dropbox credentials: invalid access token")
  else .err (.authErr "invalid access token")

def runC3 : UploadOutcome × List Event := uploadModel fileOk "/Reports" none true behavC3

/-- C3 counterexample: a credential rejection during connection-time
identity verification is re-raised as `AuthenticationError`, which only the
catch-all `except Exception` branch of `upload` catches: the engine sleeps
once and starts a second attempt instead of failing immediately with no
retry and no inter-attempt delay as the claim requires. -/
theorem c3_counterexample :
    runC3.1 = UploadOutcome.authFailed "Authentication failed: invalid access token" ∧
    numAttempts runC3.2 = 2 ∧
    numSleeps runC3.2 = 1 ∧
    ¬ (numAttempts runC3.2 ≤ 1 ∧ numSleeps runC3.2 = 0) := by
  refine ⟨by decide, by decide, by decide, by decide⟩

/-- C3 corrected: a backend call failing with the SDK's `AuthError` during
an attempt makes the call fail immediately as `AuthenticationError`, with no
further attempt and no delay, on any attempt; but a credential rejection
surfaced as the uploader's own `AuthenticationError` from connection-time
identity verification falls into the catch-all branch and is retried after
the fixed delay. -/
theorem c3_amended_auth_classification :
    (∀ (behav : Nat → AttemptResult) (ov : Bool) (db : String) (strat : UploadStrategy)
        (attempt fuel : Nat) (lastErr m : String),
      behav attempt = .err (.authErr m) →
      retryLoop behav ov db strat attempt (fuel + 1) lastErr =
        (.authFailed ("Authentication failed: " ++ m), [Event.attempt attempt strat])) ∧
    (∀ (behav : Nat → AttemptResult) (ov : Bool) (db : String) (strat : UploadStrategy)
        (m p : String),
      behav 1 = .err (.verifyAuthErr m) → behav 2 = .ok p →
      retryLoop behav ov db strat 1 MAX_RETRIES "" =
        (.success p, [Event.attempt 1 strat, Event.sleep RETRY_DELAY,
          Event.attempt 2 strat])) := by
  refine ⟨?_, ?_⟩
  · intro behav ov db strat attempt fuel lastErr m hb
    rw [retryLoop, hb]
  · intro behav ov db strat m p hb1 hb2
    have s1 : retryLoop behav ov db strat 1 MAX_RETRIES "" =
        ((retryLoop behav ov db strat 2 2 m).1,
          Event.attempt 1 strat :: Event.sleep RETRY_DELAY ::
            (retryLoop behav ov db strat 2 2 m).2) :=
      retryLoop_step_sleep behav ov db strat 1 2 "" (.verifyAuthErr m) hb1 rfl rfl (by decide)
    have s2 : retryLoop behav ov db strat 2 2 m =
        (.success p, [Event.attempt 2 strat]) :=
      retryLoop_ok behav ov db strat 2 1 m p hb2
    rw [s1, s2]

/-- Behaviour for the C3 witness: connection-time credential rejection on
attempt 1, success on attempt 2. -/
def behavC3w : Nat → AttemptResult := fun n =>
  if n = 1 then .err (.verifyAuthErr "Invalid Dropbox credentials: expired access token")
  else .ok "/Reports/w.md"

/-- Witness for the corrected C3 at a concrete behaviour. -/
theorem c3_amended_witness :
    retryLoop behavC3w true "/Reports/w.md" UploadStrategy.small 1 MAX_RETRIES "" =
      (UploadOutcome.success "/Reports/w.md",
        [Event.attempt 1 UploadStrategy.small, Event.sleep RETRY_DELAY,
          Event.attempt 2 UploadStrategy.small]) :=
  c3_amended_auth_classification.2 behavC3w true "/Reports/w.md" UploadStrategy.small
    "Invalid Dropbox credentials: expired access token" "/Reports/w.md" rfl rfl

/-- Behaviour refuting C4: a path conflict on attempt 1 with overwrite
enabled, success on attempt 2. -/
def behavC4 : Nat → AttemptResult := fun n =>
  if n = 1 then .err (.apiErr "WriteError(path, WriteConflictError: path/conflict)")
  else .ok "/Reports/report.md"

def runC4 : UploadOutcome × List Event := uploadModel fileOk "/Reports" none true behavC4

/-- C4 counterexample: the conflict on attempt 1 is classified retryable
(overwrite is enabled) and a second attempt runs, yet zero sleeps are
observed — the conflict branch (lines 325-327) retries with no delay,
contradicting the claimed unconditional fixed 5-second inter-attempt
delay. -/
theorem c4_counterexample :
    isRetryable true
      (AttemptErr.apiErr "WriteError(path, WriteConflictError: path/conflict)") = true ∧
    runC4.1 = UploadOutcome.success "/Reports/report.md" ∧
    numAttempts runC4.2 = 2 ∧
    numSleeps runC4.2 = 0 ∧
    ¬ 0 < numSleeps runC4.2 := by
  refine ⟨by decide, by decide, by decide, by decide, by decide⟩

/-- C4 corrected: a retryable non-conflict failure with attempts remaining
incurs exactly the fixed 5-second delay before the next attempt begins; a
path conflict with overwrite enabled retries immediately with no delay; and
every delay the loop ever emits is exactly `RETRY_DELAY = 5` seconds (no
growth, no jitter). -/
theorem c4_amended_fixed_delay :
    (∀ (behav : Nat → AttemptResult) (ov : Bool) (db : String) (strat : UploadStrategy)
        (attempt fuel : Nat) (lastErr : String) (e : AttemptErr),
      behav attempt = .err e → isRetryable ov e = true → isConflictErr e = false →
      attempt < MAX_RETRIES →
      retryLoop behav ov db strat attempt (fuel + 1) lastErr =
        ((retryLoop behav ov db strat (attempt + 1) fuel (errMsg e)).1,
          Event.attempt attempt strat :: Event.sleep RETRY_DELAY ::
            (retryLoop behav ov db strat (attempt + 1) fuel (errMsg e)).2)) ∧
    (∀ (behav : Nat → AttemptResult) (ov : Bool) (db : String) (strat : UploadStrategy)
        (attempt fuel : Nat) (lastErr m : String),
      behav attempt = .err (.apiErr m) → lowerContains "path/conflict" m = true →
      ov = true →
      retryLoop behav ov db strat attempt (fuel + 1) lastErr =
        ((retryLoop behav ov db strat (attempt + 1) fuel m).1,
          Event.attempt attempt strat :: (retryLoop behav ov db strat (attempt + 1) fuel m).2)) ∧
    (∀ (behav : Nat → AttemptResult) (ov : Bool) (db : String) (strat : UploadStrategy)
        (attempt fuel : Nat) (lastErr : String),
      sleepsAllFixedDelay (retryLoop behav ov db strat attempt fuel lastErr).2 = true) :=
  ⟨retryLoop_step_sleep, retryLoop_step_conflict,
    fun behav ov db strat attempt fuel lastErr =>
      retryLoop_all_sleeps_fixed fuel behav ov db strat attempt lastErr⟩

/-- Behaviour for the C4 witness: a path conflict on every attempt. -/
def behavC4w : Nat → AttemptResult := fun _ => .err (.apiErr "path/conflict")

/-- Witness for the corrected C4: the conflict-with-overwrite branch moves
straight to the next attempt with no sleep event. -/
theorem c4_amended_witness :
    retryLoop behavC4w true "/p" UploadStrategy.small 1 2 "" =
      ((retryLoop behavC4w true "/p" UploadStrategy.small 2 1 "path/conflict").1,
        Event.attempt 1 UploadStrategy.small ::
          (retryLoop behavC4w true "/p" UploadStrategy.small 2 1 "path/conflict").2) :=
  c4_amended_fixed_delay.2.1 behavC4w true "/p" UploadStrategy.small 1 1 "" "path/conflict"
    rfl (by decide) rfl

/-- A path-conflict `ApiError` with overwrite disabled: the loop raises
`UploadError("File already exists at ...")` at once (line 329). -/
theorem retryLoop_conflict_noOverwrite (behav : Nat → AttemptResult) (db : String)
    (strat : UploadStrategy) (attempt fuel : Nat) (lastErr m : String)
    (hb : behav attempt = .err (.apiErr m)) (hc : lowerContains "path/conflict" m = true) :
    retryLoop behav false db strat attempt (fuel + 1) lastErr =
      (.uploadFailed ("File already exists at " ++ db), [Event.attempt attempt strat]) := by
  rw [retryLoop, hb]
  dsimp only
  rw [if_pos hc, if_neg (fun hcontra => Bool.false_ne_true hcontra)]

/-- C7: a path-conflict `ApiError` while overwrite is disabled fails the
call immediately with `UploadError` stating the file already exists, on
whichever attempt the conflict occurs, with no further attempt; in
particular, after a retryable failure on attempt 1, a conflict on attempt 2
ends the call with only 2 of the 3 allowed attempts used. -/
theorem c7_conflict_overwrite_disabled :
    (∀ (behav : Nat → AttemptResult) (db : String) (strat : UploadStrategy)
        (attempt fuel : Nat) (lastErr m : String),
      behav attempt = .err (.apiErr m) → lowerContains "path/conflict" m = true →
      retryLoop behav false db strat attempt (fuel + 1) lastErr =
        (.uploadFailed ("File already exists at " ++ db), [Event.attempt attempt strat])) ∧
    (∀ (f : LocalFile) (folder : String) (fn : Option String)
        (behav : Nat → AttemptResult) (m1 m2 : String),
      f.doesExist = true → f.isFile = true →
      behav 1 = .err (.connErr m1) →
      behav 2 = .err (.apiErr m2) → lowerContains "path/conflict" m2 = true →
      (uploadModel f folder fn false behav).1 =
          .uploadFailed ("File already exists at "
            ++ normalize_dropbox_path (folder ++ "/" ++ fn.getD f.name)) ∧
        numAttempts (uploadModel f folder fn false behav).2 = 2) := by
  refine ⟨retryLoop_conflict_noOverwrite, ?_⟩
  intro f folder fn behav m1 m2 hE hF hb1 hb2 hc2
  rw [uploadModel_valid f hE hF]
  generalize normalize_dropbox_path (folder ++ "/" ++ fn.getD f.name) = db
  generalize chooseStrategy f.size = strat
  have s1 : retryLoop behav false db strat 1 MAX_RETRIES "" =
      ((retryLoop behav false db strat 2 2 m1).1,
        Event.attempt 1 strat :: Event.sleep RETRY_DELAY ::
          (retryLoop behav false db strat 2 2 m1).2) :=
    retryLoop_step_sleep behav false db strat 1 2 "" (.connErr m1) hb1 rfl rfl (by decide)
  have h2 : retryLoop behav false db strat 2 2 m1 =
      (.uploadFailed ("File already exists at " ++ db), [Event.attempt 2 strat]) :=
    retryLoop_conflict_noOverwrite behav db strat 2 1 m1 m2 hb2 hc2
  rw [s1, h2]
  refine ⟨rfl, ?_⟩
  simp [numAttempts, isAttemptEvent]

/-- Behaviour for the C7 witness: a connection error then a conflict. -/
def behavC7w : Nat → AttemptResult := fun n =>
  if n = 1 then .err (.connErr "timeout")
  else .err (.apiErr "path/conflict")

/-- Witness for C7 at a concrete behaviour with overwrite disabled. -/
theorem c7_conflict_overwrite_disabled_witness :
    (uploadModel ⟨"/tmp/a.md", "a.md", true, true, 7⟩ "/Docs" none false behavC7w).1 =
        UploadOutcome.uploadFailed ("File already exists at "
          ++ normalize_dropbox_path ("/Docs" ++ "/" ++ Option.getD none "a.md")) ∧
      numAttempts
        (uploadModel ⟨"/tmp/a.md", "a.md", true, true, 7⟩ "/Docs" none false behavC7w).2 = 2 :=
  c7_conflict_overwrite_disabled.2 ⟨"/tmp/a.md", "a.md", true, true, 7⟩ "/Docs" none behavC7w
    "timeout" "path/conflict" rfl rfl rfl rfl (by decide)

end DropboxUploader
